import Mathlib

/-!
Verification of the Kokoro TTS stdin server (src/kokoro-tts-server.py).

The program is a line-based command dispatcher: it reads lines from stdin,
dispatches on the literal prefixes "SPEAK:", "VOICE:", "SPEED:" and the
exact line "QUIT", synthesises speech through an external synthesizer
(kokoro_onnx), plays the result through the first available external
player among pw-play, paplay and aplay, and answers each processed line
with "OK" or "ERROR".

External collaborators (the kokoro synthesizer with its voice table, the
Python float builtin used to parse speed tokens, the tempfile module and
the subprocess player invocations) are modelled as parameters gathered in
an Env record; the dispatcher, the speak routine and the server loop are
translated line by line from the source.
-/

namespace KokoroTTS

/-- Python str.strip() whitespace predicate, restricted to the ASCII
whitespace characters (space, tab, newline, carriage return, vertical
tab, form feed); the source only ever strips such characters. -/
def isPySpace (c : Char) : Bool :=
  c == ' ' || c == '\t' || c == '\n' || c == '\r' || c == '\x0b' || c == '\x0c'

/-- Python str.strip(): remove leading and trailing whitespace. -/
def pyStrip (s : String) : String :=
  String.mk (((s.data.dropWhile isPySpace).reverse.dropWhile isPySpace).reverse)

/-- Character-list recursion behind strStarts: true when the first list
is an initial segment of the second. -/
def listStarts : List Char → List Char → Bool
  | [], _ => true
  | _ :: _, [] => false
  | a :: as, b :: bs => a == b && listStarts as bs

/-- Python str.startswith(p), on code points. -/
def strStarts (p s : String) : Bool :=
  listStarts p.data s.data

/-- Python slicing s[n:], on code points. -/
def strDrop (s : String) (n : Nat) : String :=
  String.mk (s.data.drop n)

/-- Outcome of one subprocess.run invocation of a candidate player
(line 95): the executable is missing (FileNotFoundError), the run
exceeds its timeout (subprocess.TimeoutExpired), or the process
completes with an exit code. -/
inductive PlayerOutcome
  | notFound
  | timeout
  | exited (code : Int)
deriving DecidableEq

/-- Observable events of one speak call: creation of the temporary wav
file (line 81), one player invocation with its timeout in seconds
(line 95), deletion of the temporary file (line 102, os.unlink). -/
inductive SpeakEv
  | tempCreated
  | invoked (cmd : List String) (timeoutSecs : Nat)
  | tempDeleted
deriving DecidableEq

/-- The external collaborators of the server, as one record:
the synthesizer voice table keys (kokoro.voices), the Python float
builtin as a parse oracle (line 146; None models ValueError), whether
kokoro.create succeeds for given text, voice and speed (lines 70-82;
false models an exception raised before the temporary file exists),
the outcome of invoking each player executable, and the temporary file
path handed out by tempfile.NamedTemporaryFile. -/
structure Env (F : Type) where
  voices : List String
  parseFloat : String → Option F
  synthOk : String → String → F → Bool
  player : String → PlayerOutcome
  tmpPath : String

/-- The mutable session state of KokoroTTSServer.__init__ (lines 50-52):
voice, speed and the running flag. The running flag is only ever
cleared by the signal handler (line 61), which is outside this model;
no command handler touches it. -/
structure State (F : Type) where
  voice : String
  speed : F
  running : Bool
deriving DecidableEq

/-- Line 41: default_voice = "af_bella", assigned without consulting the
voice table. -/
def default_voice : String := "af_bella"

/-- Initial session state (lines 50-52); one is the F-value denoting the
Python float 1.0. -/
def initState {F : Type} (one : F) : State F :=
  ⟨default_voice, one, true⟩

/-- The fixed candidate player list of lines 86-90: command line and
executable name, in source order. -/
def audioPlayers (tmpPath : String) : List (List String × String) :=
  [(["pw-play", tmpPath], "pw-play"),
   (["paplay", tmpPath], "paplay"),
   (["aplay", "-q", tmpPath], "aplay")]

/-- The fallback loop of lines 92-99. The accumulator is the Python
variable result (None before any candidate completed). A candidate that
is missing or times out leaves result unchanged and moves on; a
completed candidate stores its exit code, and the loop breaks when that
code is zero. Returns the invocation trace and the final result. -/
def playerLoop (penv : String → PlayerOutcome) :
    List (List String × String) → Option Int → List SpeakEv × Option Int
  | [], r => ([], r)
  | (cmd, name) :: rest, r =>
    match penv name with
    | PlayerOutcome.notFound =>
      let p := playerLoop penv rest r
      (SpeakEv.invoked cmd 10 :: p.1, p.2)
    | PlayerOutcome.timeout =>
      let p := playerLoop penv rest r
      (SpeakEv.invoked cmd 10 :: p.1, p.2)
    | PlayerOutcome.exited c =>
      if c == 0 then ([SpeakEv.invoked cmd 10], some c)
      else
        let p := playerLoop penv rest (some c)
        (SpeakEv.invoked cmd 10 :: p.1, p.2)

/-- KokoroTTSServer.speak (lines 64-113). If synthesis raises, the
except clause of line 111 returns False before any temporary file
exists. Otherwise the temporary file is written, the player loop runs,
os.unlink deletes the file (line 102), and the return value is whether
the recorded exit code is zero; when no candidate completed, result is
None and line 104 raises AttributeError, caught at line 111, returning
False — after the unlink already ran. -/
def speak {F : Type} (env : Env F) (st : State F) (text : String) :
    Bool × List SpeakEv :=
  if env.synthOk text st.voice st.speed then
    match playerLoop env.player (audioPlayers env.tmpPath) none with
    | (tr, some c) =>
      (c == 0, SpeakEv.tempCreated :: tr ++ [SpeakEv.tempDeleted])
    | (tr, none) =>
      (false, SpeakEv.tempCreated :: tr ++ [SpeakEv.tempDeleted])
  else (false, [])

/-- Result of handling one input line: the new session state, the lines
printed to stdout, the speak calls made (text argument together with the
return value and event trace of the call; the caller at lines 134 and
154 discards the return value), and whether the loop breaks. -/
structure StepResult (F : Type) where
  state : State F
  outputs : List String
  spoken : List (String × (Bool × List SpeakEv))
  quit : Bool
deriving DecidableEq

/-- The dispatch of lines 127-155 on an already-read line, including the
strip-and-skip of lines 127-129. Branch order is the source order:
empty, SPEAK:, VOICE:, SPEED:, QUIT, default speak. The None case of
parseFloat models float() raising ValueError, caught by the handler of
lines 157-159 which prints ERROR; no other modelled branch can raise. -/
def dispatch {F : Type} (env : Env F) (st : State F) (l : String) :
    StepResult F :=
  if l = "" then ⟨st, [], [], false⟩
  else if strStarts "SPEAK:" l then
    ⟨st, ["OK"],
      [(pyStrip (strDrop l 6), speak env st (pyStrip (strDrop l 6)))], false⟩
  else if strStarts "VOICE:" l then
    if pyStrip (strDrop l 6) ∈ env.voices then
      ⟨{ st with voice := pyStrip (strDrop l 6) }, ["OK"], [], false⟩
    else ⟨st, ["ERROR"], [], false⟩
  else if strStarts "SPEED:" l then
    match env.parseFloat (pyStrip (strDrop l 6)) with
    | some v => ⟨{ st with speed := v }, ["OK"], [], false⟩
    | none => ⟨st, ["ERROR"], [], false⟩
  else if l = "QUIT" then ⟨st, [], [], true⟩
  else ⟨st, ["OK"], [(l, speak env st l)], false⟩

/-- One loop iteration body: strip the raw line (line 127) and dispatch. -/
def handleLine {F : Type} (env : Env F) (st : State F) (raw : String) :
    StepResult F :=
  dispatch env st (pyStrip raw)

/-- Accumulated observation of a whole server run: final session state,
all stdout lines in order, all speak calls in order. -/
structure RunResult (F : Type) where
  state : State F
  outputs : List String
  spoken : List (String × (Bool × List SpeakEv))
deriving DecidableEq

/-- The read loop of KokoroTTSServer.run (lines 119-159) on a list of
raw input lines. An empty raw line is the EOF sentinel of
sys.stdin.readline (lines 123-125) and stops the loop; a quit result
stops the loop with no further reads. Signals are outside the model, so
the running flag stays true throughout. -/
def run {F : Type} (env : Env F) : State F → List String → RunResult F
  | st, [] => ⟨st, [], []⟩
  | st, raw :: rest =>
    if raw = "" then ⟨st, [], []⟩
    else
      let r := handleLine env st raw
      if r.quit then ⟨r.state, r.outputs, r.spoken⟩
      else
        let rr := run env r.state rest
        ⟨rr.state, r.outputs ++ rr.outputs, r.spoken ++ rr.spoken⟩

/-- A concrete environment over F = Int used to instantiate theorems on
closed inputs: two known voices, a parse oracle accepting only "2.5",
synthesis always succeeding, every player executable missing. -/
def envW : Env Int :=
  { voices := ["af_bella", "af_heart"]
  , parseFloat := fun s => if s = "2.5" then some 25 else none
  , synthOk := fun _ _ _ => true
  , player := fun _ => PlayerOutcome.notFound
  , tmpPath := "/tmp/sample.wav" }

/-- A concrete environment whose voice table does not contain the
default voice af_bella. -/
def envNoBella : Env Int :=
  { voices := ["bm_lewis"]
  , parseFloat := fun _ => none
  , synthOk := fun _ _ _ => true
  , player := fun _ => PlayerOutcome.notFound
  , tmpPath := "/tmp/sample.wav" }

/-- A concrete player environment: pw-play missing, paplay succeeds. -/
def penvW : String → PlayerOutcome :=
  fun n => if n = "paplay" then PlayerOutcome.exited 0 else PlayerOutcome.notFound

/-! Dispatch equations, one per recognized branch. Each is definitional:
the branch tests of dispatch reduce on a line of the given shape. -/

theorem dispatch_speak_eq {F : Type} (env : Env F) (st : State F) (rest : String) :
    dispatch env st ("SPEAK:" ++ rest) =
      ⟨st, ["OK"], [(pyStrip rest, speak env st (pyStrip rest))], false⟩ := rfl

theorem dispatch_voice_eq {F : Type} (env : Env F) (st : State F) (rest : String) :
    dispatch env st ("VOICE:" ++ rest) =
      (if pyStrip rest ∈ env.voices then
        ⟨{ st with voice := pyStrip rest }, ["OK"], [], false⟩
      else ⟨st, ["ERROR"], [], false⟩) := rfl

theorem dispatch_speed_eq {F : Type} (env : Env F) (st : State F) (rest : String) :
    dispatch env st ("SPEED:" ++ rest) =
      (match env.parseFloat (pyStrip rest) with
       | some v => ⟨{ st with speed := v }, ["OK"], [], false⟩
       | none => ⟨st, ["ERROR"], [], false⟩) := rfl

theorem dispatch_quit_eq {F : Type} (env : Env F) (st : State F) :
    dispatch env st "QUIT" = ⟨st, [], [], true⟩ := rfl

/-- Claim C9: an input line that is empty after trimming produces no
output line, no speak call, no loop exit, and leaves every field of the
session state (voice, speed, running) unchanged. -/
theorem C9_empty_line_noop {F : Type} (env : Env F) (st : State F) (raw : String)
    (h : pyStrip raw = "") :
    handleLine env st raw = ⟨st, [], [], false⟩ := by
  unfold handleLine
  rw [h]
  rfl

theorem C9_witness :
    handleLine envW (initState (1 : Int)) " \t " =
      ⟨initState (1 : Int), [], [], false⟩ :=
  C9_empty_line_noop envW (initState (1 : Int)) " \t " (by decide)

/-- Claim C10: the line SPEAK: with nothing (or only whitespace) after
the colon is not treated as an ignored empty line: the speak operation
is invoked on the empty string and exactly one OK response is emitted. -/
theorem C10_empty_text_spoken {F : Type} (env : Env F) (st : State F) (raw : String)
    (h : pyStrip raw = "SPEAK:") :
    handleLine env st raw = ⟨st, ["OK"], [("", speak env st "")], false⟩ := by
  unfold handleLine
  rw [h]
  rfl

theorem C10_witness :
    handleLine envW (initState (1 : Int)) "SPEAK:  " =
      ⟨initState (1 : Int), ["OK"],
       [("", speak envW (initState (1 : Int)) "")], false⟩ :=
  C10_empty_text_spoken envW (initState (1 : Int)) "SPEAK:  " (by decide)

/-- Claim C8: dispatch is case-sensitive and strictly based on the
literal command markers: the line speak:hello (lowercase) is not a
SPEAK command; it falls into the default branch, which speaks the
literal text speak:hello, answers OK and leaves the state unchanged,
while SPEAK:hello speaks hello. -/
theorem C8_case_sensitive {F : Type} (env : Env F) (st : State F) :
    (handleLine env st "speak:hello").outputs = ["OK"] ∧
    (handleLine env st "speak:hello").spoken.map Prod.fst = ["speak:hello"] ∧
    (handleLine env st "speak:hello").state = st ∧
    (handleLine env st "speak:hello").quit = false ∧
    (handleLine env st "SPEAK:hello").spoken.map Prod.fst = ["hello"] ∧
    (handleLine env st "SPEAK:hello").outputs = ["OK"] :=
  ⟨rfl, rfl, rfl, rfl, rfl, rfl⟩

/-- Claim C1: every line beginning with SPEAK:, and every non-empty
line handled by the default speak branch, is answered with exactly the
single line OK for every environment — in particular for environments
in which synthesis raises or playback fails — so a speak failure is
never surfaced to the caller as ERROR. -/
theorem C1_speak_always_ok {F : Type} (env : Env F) (st : State F) (raw : String)
    (h : (∃ rest, pyStrip raw = "SPEAK:" ++ rest) ∨
      (pyStrip raw ≠ "" ∧ strStarts "SPEAK:" (pyStrip raw) = false ∧
       strStarts "VOICE:" (pyStrip raw) = false ∧
       strStarts "SPEED:" (pyStrip raw) = false ∧ pyStrip raw ≠ "QUIT")) :
    (handleLine env st raw).outputs = ["OK"] := by
  unfold handleLine
  rcases h with ⟨rest, hs⟩ | ⟨h0, h1, h2, h3, h4⟩
  · rw [hs, dispatch_speak_eq]
  · unfold dispatch
    simp [h0, h1, h2, h3, h4]

theorem C1_witness :
    (handleLine envW (initState (1 : Int)) "SPEAK:hello").outputs = ["OK"] ∧
    (handleLine envW (initState (1 : Int)) "just some text").outputs = ["OK"] :=
  ⟨C1_speak_always_ok envW (initState (1 : Int)) "SPEAK:hello"
      (Or.inl ⟨"hello", by decide⟩),
   C1_speak_always_ok envW (initState (1 : Int)) "just some text"
      (Or.inr (by refine ⟨?_, ?_, ?_, ?_, ?_⟩ <;> decide))⟩

/-- Claim C2: on a line VOICE:name, if the trimmed name is in the known
voice set the session voice becomes that name and the answer is OK;
otherwise the whole session state — in particular the voice — is
unchanged and the answer is ERROR. -/
theorem C2_voice_update {F : Type} (env : Env F) (st : State F) (raw rest : String)
    (h : pyStrip raw = "VOICE:" ++ rest) :
    (pyStrip rest ∈ env.voices →
      handleLine env st raw =
        ⟨{ st with voice := pyStrip rest }, ["OK"], [], false⟩) ∧
    (pyStrip rest ∉ env.voices →
      handleLine env st raw = ⟨st, ["ERROR"], [], false⟩) := by
  unfold handleLine
  rw [h, dispatch_voice_eq]
  constructor
  · intro hv
    rw [if_pos hv]
  · intro hv
    rw [if_neg hv]

theorem C2_witness :
    handleLine envW (initState (1 : Int)) "VOICE: af_heart " =
      ⟨{ initState (1 : Int) with voice := "af_heart" }, ["OK"], [], false⟩ ∧
    handleLine envW (initState (1 : Int)) "VOICE:nope" =
      ⟨initState (1 : Int), ["ERROR"], [], false⟩ :=
  ⟨(C2_voice_update envW (initState (1 : Int)) "VOICE: af_heart " " af_heart"
      (by decide)).1 (by decide),
   (C2_voice_update envW (initState (1 : Int)) "VOICE:nope" "nope"
      (by decide)).2 (by decide)⟩

/-- Claim C3: on a line SPEED:token, if the trimmed token parses as a
float — any parsed value, with no range restriction — the session speed
becomes the parsed value and the answer is OK; if parsing fails the
whole session state, in particular the prior speed, is unchanged and
the answer is ERROR. -/
theorem C3_speed_update {F : Type} (env : Env F) (st : State F) (raw rest : String)
    (h : pyStrip raw = "SPEED:" ++ rest) :
    (∀ v, env.parseFloat (pyStrip rest) = some v →
      handleLine env st raw = ⟨{ st with speed := v }, ["OK"], [], false⟩) ∧
    (env.parseFloat (pyStrip rest) = none →
      handleLine env st raw = ⟨st, ["ERROR"], [], false⟩) := by
  unfold handleLine
  rw [h, dispatch_speed_eq]
  constructor
  · intro v hv
    rw [hv]
  · intro hv
    rw [hv]

theorem C3_witness :
    handleLine envW (initState (1 : Int)) "SPEED:2.5" =
      ⟨{ initState (1 : Int) with speed := 25 }, ["OK"], [], false⟩ ∧
    handleLine envW (initState (1 : Int)) "SPEED:abc" =
      ⟨initState (1 : Int), ["ERROR"], [], false⟩ :=
  ⟨(C3_speed_update envW (initState (1 : Int)) "SPEED:2.5" "2.5"
      (by decide)).1 25 (by decide),
   (C3_speed_update envW (initState (1 : Int)) "SPEED:abc" "abc"
      (by decide)).2 (by decide)⟩

/-! Helper lemmas on the player fallback loop. -/

/-- The invocation trace of the fallback loop does not depend on the
accumulated result value. -/
theorem playerLoop_trace_indep (penv : String → PlayerOutcome) :
    ∀ (ps : List (List String × String)) (r1 r2 : Option Int),
      (playerLoop penv ps r1).1 = (playerLoop penv ps r2).1 := by
  intro ps
  induction ps with
  | nil => intro r1 r2; rfl
  | cons p rest ih =>
    intro r1 r2
    obtain ⟨cmd, name⟩ := p
    rcases hc : penv name with _ | _ | c
    · simp [playerLoop, hc, ih r1 r2]
    · simp [playerLoop, hc, ih r1 r2]
    · by_cases h0 : (c == 0) = true
      · simp [playerLoop, hc, h0]
      · simp [playerLoop, hc, h0, ih (some c) (some c)]

/-- A candidate that is missing, times out, or exits non-zero
contributes one invocation and the loop moves on to the rest. -/
theorem playerLoop_skip (penv : String → PlayerOutcome)
    (cmd : List String) (name : String) (rest : List (List String × String))
    (r : Option Int) (h : penv name ≠ PlayerOutcome.exited 0) :
    (playerLoop penv ((cmd, name) :: rest) r).1 =
      SpeakEv.invoked cmd 10 :: (playerLoop penv rest r).1 := by
  rcases hc : penv name with _ | _ | c
  · simp [playerLoop, hc]
  · simp [playerLoop, hc]
  · have h0 : (c == 0) = false := by
      simp only [beq_eq_false_iff_ne, ne_eq]
      intro hh
      exact h (by rw [hc, hh])
    simp [playerLoop, hc, h0, playerLoop_trace_indep penv rest (some c) r]

/-- A candidate whose process exits with status zero ends the loop:
its invocation is the last one. -/
theorem playerLoop_hit (penv : String → PlayerOutcome)
    (cmd : List String) (name : String) (rest : List (List String × String))
    (r : Option Int) (h : penv name = PlayerOutcome.exited 0) :
    playerLoop penv ((cmd, name) :: rest) r =
      ([SpeakEv.invoked cmd 10], some 0) := by
  simp [playerLoop, h]

/-- If no candidate process ever exits with status zero, the loop result
can only be the accumulated value it started from. -/
theorem playerLoop_zero (penv : String → PlayerOutcome)
    (hnp : ∀ n, penv n ≠ PlayerOutcome.exited 0) :
    ∀ (ps : List (List String × String)) (r : Option Int),
      (playerLoop penv ps r).2 = some 0 → r = some 0 := by
  intro ps
  induction ps with
  | nil => intro r h; simpa [playerLoop] using h
  | cons p rest ih =>
    intro r h
    obtain ⟨cmd, name⟩ := p
    rcases hc : penv name with _ | _ | c
    · simp only [playerLoop, hc] at h
      exact ih r h
    · simp only [playerLoop, hc] at h
      exact ih r h
    · have h0 : (c == 0) = false := by
        simp only [beq_eq_false_iff_ne, ne_eq]
        intro hh
        exact hnp name (by rw [hc, hh])
      simp only [playerLoop, hc, h0] at h
      have hc0 := ih (some c) h
      have : c = 0 := by simpa using hc0
      rw [this] at h0
      simp at h0

/-- Claim C4: whenever synthesis succeeds (so a temporary audio file is
created), the speak routine deletes the file after the last player
invocation and before returning — also when every candidate player is
unavailable or times out — and when no candidate exits with status zero
it returns false. -/
theorem C4_speak_temp_cleanup {F : Type} (env : Env F) (st : State F) (text : String)
    (h : env.synthOk text st.voice st.speed = true) :
    (speak env st text).2.getLast? = some SpeakEv.tempDeleted ∧
    SpeakEv.tempCreated ∈ (speak env st text).2 ∧
    ((∀ n, env.player n ≠ PlayerOutcome.exited 0) →
      (speak env st text).1 = false) := by
  unfold speak
  rw [if_pos h]
  rcases hpl : playerLoop env.player (audioPlayers env.tmpPath) none with ⟨tr, r⟩
  cases r with
  | none =>
    refine ⟨?_, ?_, fun _ => rfl⟩
    · show ((SpeakEv.tempCreated :: tr) ++ [SpeakEv.tempDeleted]).getLast? =
        some SpeakEv.tempDeleted
      exact List.getLast?_concat _
    · show SpeakEv.tempCreated ∈ SpeakEv.tempCreated :: tr ++ [SpeakEv.tempDeleted]
      simp
  | some c =>
    refine ⟨?_, ?_, ?_⟩
    · show ((SpeakEv.tempCreated :: tr) ++ [SpeakEv.tempDeleted]).getLast? =
        some SpeakEv.tempDeleted
      exact List.getLast?_concat _
    · show SpeakEv.tempCreated ∈ SpeakEv.tempCreated :: tr ++ [SpeakEv.tempDeleted]
      simp
    · intro hnp
      show (c == 0) = false
      by_cases hc : c = 0
      · have hz : (playerLoop env.player (audioPlayers env.tmpPath) none).2 = some 0 := by
          rw [hpl, hc]
        have := playerLoop_zero env.player hnp (audioPlayers env.tmpPath) none hz
        simp at this
      · simp [hc]

theorem C4_witness :
    (speak envW (initState (1 : Int)) "hello").2.getLast? = some SpeakEv.tempDeleted ∧
    (speak envW (initState (1 : Int)) "hello").1 = false :=
  ⟨(C4_speak_temp_cleanup envW (initState (1 : Int)) "hello" rfl).1,
   (C4_speak_temp_cleanup envW (initState (1 : Int)) "hello" rfl).2.2
     (fun _ h => PlayerOutcome.noConfusion h)⟩

/-- Claim C7: the candidate players are attempted in the fixed order
pw-play, paplay, then aplay with its quiet flag, each invoked with a
10-second timeout; a missing or timed-out candidate is skipped, and the
iteration stops at the first candidate that exits with status zero, so
later candidates are never invoked after a success. -/
theorem C7_player_cascade (penv : String → PlayerOutcome) (tmp : String) :
    (penv "pw-play" = PlayerOutcome.exited 0 →
      (playerLoop penv (audioPlayers tmp) none).1 =
        [SpeakEv.invoked ["pw-play", tmp] 10]) ∧
    (penv "pw-play" ≠ PlayerOutcome.exited 0 →
      penv "paplay" = PlayerOutcome.exited 0 →
      (playerLoop penv (audioPlayers tmp) none).1 =
        [SpeakEv.invoked ["pw-play", tmp] 10,
         SpeakEv.invoked ["paplay", tmp] 10]) ∧
    (penv "pw-play" ≠ PlayerOutcome.exited 0 →
      penv "paplay" ≠ PlayerOutcome.exited 0 →
      (playerLoop penv (audioPlayers tmp) none).1 =
        [SpeakEv.invoked ["pw-play", tmp] 10,
         SpeakEv.invoked ["paplay", tmp] 10,
         SpeakEv.invoked ["aplay", "-q", tmp] 10]) := by
  refine ⟨?_, ?_, ?_⟩
  · intro h1
    rw [audioPlayers, playerLoop_hit penv _ _ _ _ h1]
  · intro h1 h2
    rw [audioPlayers, playerLoop_skip penv _ _ _ _ h1,
      playerLoop_hit penv _ _ _ _ h2]
  · intro h1 h2
    rw [audioPlayers, playerLoop_skip penv _ _ _ _ h1,
      playerLoop_skip penv _ _ _ _ h2]
    rcases ha : penv "aplay" with _ | _ | c
    · rw [playerLoop_skip penv _ _ _ _ (by rw [ha]; exact fun hh => PlayerOutcome.noConfusion hh)]
      rfl
    · rw [playerLoop_skip penv _ _ _ _ (by rw [ha]; exact fun hh => PlayerOutcome.noConfusion hh)]
      rfl
    · by_cases hc : c = 0
      · rw [playerLoop_hit penv _ _ _ _ (by rw [ha, hc])]
      · rw [playerLoop_skip penv _ _ _ _
          (by rw [ha]; intro hh; exact hc (by injection hh))]
        rfl

theorem C7_witness :
    (playerLoop penvW (audioPlayers "/tmp/sample.wav") none).1 =
      [SpeakEv.invoked ["pw-play", "/tmp/sample.wav"] 10,
       SpeakEv.invoked ["paplay", "/tmp/sample.wav"] 10] :=
  (C7_player_cascade penvW "/tmp/sample.wav").2.1
    (fun h => PlayerOutcome.noConfusion (show PlayerOutcome.notFound = PlayerOutcome.exited 0 from h))
    rfl

/-- Voice provenance of a single dispatch step: the voice field is
either untouched or set to a member of the known voice set. -/
theorem dispatch_voice_cases {F : Type} (env : Env F) (st : State F) (l : String) :
    (dispatch env st l).state.voice = st.voice ∨
    (dispatch env st l).state.voice ∈ env.voices := by
  unfold dispatch
  split_ifs <;> try exact Or.inl rfl
  · exact Or.inr (by assumption)
  · rcases hm : env.parseFloat (pyStrip (strDrop l 6)) with _ | v
    · exact Or.inl rfl
    · exact Or.inl rfl

/-- Voice provenance along a whole run: once the state voice is the
default or a known voice, it stays so. -/
theorem run_voice_inv {F : Type} (env : Env F) :
    ∀ (lines : List String) (st : State F),
      st.voice = default_voice ∨ st.voice ∈ env.voices →
      (run env st lines).state.voice = default_voice ∨
      (run env st lines).state.voice ∈ env.voices := by
  intro lines
  induction lines with
  | nil => intro st h; simpa [run] using h
  | cons raw rest ih =>
    intro st h
    by_cases he : raw = ""
    · simpa [run, he] using h
    · have hstep : (handleLine env st raw).state.voice = st.voice ∨
          (handleLine env st raw).state.voice ∈ env.voices :=
        dispatch_voice_cases env st (pyStrip raw)
      have hinv : (handleLine env st raw).state.voice = default_voice ∨
          (handleLine env st raw).state.voice ∈ env.voices := by
        rcases hstep with hv | hv
        · rw [hv]; exact h
        · exact Or.inr hv
      simp only [run, if_neg he]
      by_cases hq : (handleLine env st raw).quit
      · rw [if_pos hq]
        exact hinv
      · rw [if_neg hq]
        exact ih _ hinv

/-- Claim C5, amended: in every session state reachable from the initial
state, the voice field is either the fixed default af_bella — assigned
at initialization without consulting the voice table — or a value that
was a member of the known voice set when it was assigned by a VOICE
command. -/
theorem C5_amended_voice_provenance {F : Type} (env : Env F) (one : F)
    (lines : List String) :
    (run env (initState one) lines).state.voice = default_voice ∨
    (run env (initState one) lines).state.voice ∈ env.voices :=
  run_voice_inv env lines (initState one) (Or.inl rfl)

/-- Counterexample to claim C5 as stated: against a synthesizer whose
known voice set does not contain af_bella, the initial state — reached
by the empty command sequence — already holds a voice that was never a
member of the known set, because the default is assigned unchecked. -/
theorem C5_counterexample :
    ¬ ((run envNoBella (initState (1 : Int)) []).state.voice ∈
        envNoBella.voices) := by
  decide

/-- A line whose trimmed content is not QUIT never makes the loop
break. -/
theorem handleLine_no_quit {F : Type} (env : Env F) (st : State F) (raw : String)
    (h : pyStrip raw ≠ "QUIT") : (handleLine env st raw).quit = false := by
  unfold handleLine dispatch
  split_ifs <;> try rfl
  · rcases env.parseFloat (pyStrip (strDrop (pyStrip raw) 6)) with _ | v <;> rfl

/-- Claim C6: when the input stream consists of lines pre — none of them
an EOF sentinel or a trimmed QUIT — followed by a line trimming to QUIT
and then arbitrary further lines, the run is identical to the run on pre
alone: the QUIT line terminates the loop, produces no output line and no
speak call, and no later line is ever processed or changes the state. -/
theorem C6_quit_terminates {F : Type} (env : Env F) :
    ∀ (pre : List String) (st : State F) (q : String) (post : List String),
      pyStrip q = "QUIT" →
      (∀ l ∈ pre, l ≠ "" ∧ pyStrip l ≠ "QUIT") →
      run env st (pre ++ q :: post) = run env st pre := by
  intro pre
  induction pre with
  | nil =>
    intro st q post hq hpre
    have hne : q ≠ "" := by
      intro hh
      rw [hh] at hq
      exact absurd hq (by decide)
    have hstep : handleLine env st q = ⟨st, [], [], true⟩ := by
      unfold handleLine
      rw [hq]
      rfl
    simp [run, hne, hstep]
  | cons a pre ih =>
    intro st q post hq hpre
    have ha := hpre a (List.mem_cons_self a pre)
    have hq0 : (handleLine env st a).quit = false :=
      handleLine_no_quit env st a ha.2
    have hpre2 : ∀ l ∈ pre, l ≠ "" ∧ pyStrip l ≠ "QUIT" :=
      fun l hl => hpre l (List.mem_cons_of_mem a hl)
    simp only [List.cons_append, run, if_neg ha.1, hq0, Bool.false_eq_true,
      if_false, List.append_eq]
    rw [ih (handleLine env st a).state q post hq hpre2]

theorem C6_witness :
    run envW (initState (1 : Int)) ["VOICE:af_heart", " QUIT ", "SPEAK:x"] =
      run envW (initState (1 : Int)) ["VOICE:af_heart"] :=
  C6_quit_terminates envW ["VOICE:af_heart"] (initState (1 : Int)) " QUIT "
    ["SPEAK:x"] (by decide) (by decide)

end KokoroTTS
